import Mathlib

/-!
Shallow embedding of `src/make/patch_meta.py` (runtime hook that patches
the `importlib.metadata` registry for excluded packages).

Strings are Lean `String`; Python dicts are association lists with unique
keys updated in place (`dinsert` / `dget?`); file reading is modelled by
`ReadResult` (contents, file-not-found, or any other read failure, since the
Python code catches only `FileNotFoundError`); the process-wide registry and
the wrapper chain created by repeated patching are modelled by `VersionFn` /
`DistributionFn` with an explicit evaluator.
-/

set_option autoImplicit false

namespace PatchMeta

/-- A Python dict from package name to version string: an association list
whose keys are kept unique by `dinsert`. -/
abbrev Dict := List (String × String)

/-- Python `d[k] = v`: replace the binding in place if the key is present,
else append it (insertion order is preserved, as for a Python dict). -/
def dinsert : Dict → String → String → Dict
  | [], k, v => [(k, v)]
  | kv :: rest, k, v => if kv.1 = k then (k, v) :: rest else kv :: dinsert rest k v

/-- Python `d.get(k)`: the value bound to `k`, if any. -/
def dget? : Dict → String → Option String
  | [], _ => none
  | kv :: rest, k => if kv.1 = k then some kv.2 else dget? rest k

/-- Python `str.strip()` (whitespace trim on both ends). -/
def pstrip (s : String) : String :=
  ⟨((s.data.dropWhile Char.isWhitespace).reverse.dropWhile Char.isWhitespace).reverse⟩

/-- Python `line.startswith(litHash)` where `litHash` is the comment marker. -/
def startsWithHash (s : String) : Bool :=
  s.data.head? == some '#'

/-- Python `litEqEq in line` for the two-character substring `==`. -/
def hasEqEq : List Char → Bool
  | '=' :: '=' :: _ => true
  | _ :: rest => hasEqEq rest
  | [] => false

/-- Python `line.split(litEqEq, 1)`: the part before the first `==` and the
untouched remainder after it. -/
def splitEqEq : List Char → List Char × List Char
  | '=' :: '=' :: rest => ([], rest)
  | c :: rest => let p := splitEqEq rest; (c :: p.1, p.2)
  | [] => ([], [])

/-- The excludes loop of `load_exclude_packages_and_versions`: strip each
line, skip blank and `#` lines, collect the rest as a set (modelled as a
duplicate-free list in first-insertion order). -/
def parseExcludes (lines : List String) : List String :=
  lines.foldl
    (fun acc l =>
      let line := pstrip l
      if line = "" then acc
      else if startsWithHash line then acc
      else if line ∈ acc then acc else acc ++ [line])
    []

/-- One iteration of the requirements loop: strip the line, skip blank,
comment and `==`-free lines, otherwise split at the first `==` and store
`package.strip() -> version.strip()`. -/
def reqStep (m : Dict) (l : String) : Dict :=
  let line := pstrip l
  if line = "" then m
  else if startsWithHash line then m
  else if hasEqEq line.data then
    let p := splitEqEq line.data
    dinsert m (pstrip ⟨p.1⟩) (pstrip ⟨p.2⟩)
  else m

/-- The requirements loop of `load_exclude_packages_and_versions`. -/
def parseRequirements (lines : List String) : Dict :=
  lines.foldl reqStep []

/-- The fixed default version string of the resolver. -/
def default_version : String := "1.0.0"

/-- The alias/default fallback taken when the exact lookup yields nothing
truthy: `package_versions.get(litPillow, default)` for `PIL`,
`package_versions.get(litScikitLearn, default)` for `sklearn`, else the
default. -/
def aliasFallback (pv : Dict) (package : String) : String :=
  if package = "PIL" then (dget? pv "pillow").getD default_version
  else if package = "sklearn" then (dget? pv "scikit-learn").getD default_version
  else default_version

/-- Per-package resolution in the loop over `excluded_packages`:
`version = package_versions.get(package); if not version:` fall back — note
that Python falsiness sends an empty version string to the fallback too. -/
def resolve (pv : Dict) (package : String) : String :=
  match dget? pv package with
  | some v => if v = "" then aliasFallback pv package else v
  | none => aliasFallback pv package

/-- The body of `load_exclude_packages_and_versions` after both files are
parsed: build `fake_versions` over the excluded set, then add the two
reverse-alias mappings, which assign `PIL` / `sklearn` unconditionally
(overwriting any value the loop gave them). -/
def build_fake_versions (excluded : List String) (pv : Dict) : Dict :=
  let base := excluded.foldl (fun m p => dinsert m p (resolve pv p)) []
  let base2 :=
    match dget? pv "pillow" with
    | some v => dinsert base "PIL" v
    | none => base
  match dget? pv "scikit-learn" with
  | some v => dinsert base2 "sklearn" v
  | none => base2

/-- Outcome of opening and reading one of the two input files. `notFound` is
Python `FileNotFoundError` (the only exception the code catches);
`accessError` is any other failure of `open`/read (permission denied,
decode error, ...). -/
inductive ReadResult
  | content (lines : List String)
  | notFound
  | accessError
deriving DecidableEq, Repr

/-- The warnings the resolver prints. -/
inductive Warning
  | excludesNotFound
  | requirementsNotFound
deriving DecidableEq, Repr

/-- An exception that escapes to the caller (any non-`FileNotFoundError`
raised while reading a source file). -/
inductive PyError
  | readFailure
deriving DecidableEq, Repr

/-- Reading one source under the `try/except FileNotFoundError` of the
code: contents pass through, `FileNotFoundError` yields empty lines plus the
given warning, anything else propagates. -/
def readSource (r : ReadResult) (w : Warning) : Except PyError (List String × List Warning) :=
  match r with
  | .content lines => .ok (lines, [])
  | .notFound => .ok ([], [w])
  | .accessError => .error .readFailure

/-- `load_exclude_packages_and_versions(excludes_file, requirements_file)`:
read and parse the excludes file, then the requirements file (each under its
own `try/except FileNotFoundError`), then build the fake-versions dict.
Returns the dict together with the warnings printed. -/
def load_exclude_packages_and_versions (ex req : ReadResult) :
    Except PyError (Dict × List Warning) := do
  let exRead ← readSource ex .excludesNotFound
  let reqRead ← readSource req .requirementsNotFound
  let excluded := parseExcludes exRead.1
  let pv := parseRequirements reqRead.1
  .ok (build_fake_versions excluded pv, exRead.2 ++ reqRead.2)

/-- Name normalization used by both patched lookups:
`dist_name.lower().replace(litDash, litUnderscore)` — lowercase every
character and turn each hyphen into an underscore. -/
def normChar (c : Char) : Char :=
  if c = '-' then '_' else c.toLower

/-- Normalization of a whole name (the package names at stake are ASCII,
where Python `str.lower` and `Char.toLower` agree). -/
def norm (s : String) : String :=
  ⟨s.data.map normChar⟩

/-- `patched_version(dist_name)`: exact dict hit first, then the loop over
the fake keys comparing normalized names, else the original function — whose
exception, if any, is re-raised unchanged (`except Exception: raise`).
The original registry function is passed explicitly; its failures are
`Except.error` values. -/
def patched_version (fv : Dict) (original_version : String → Except String String)
    (dist_name : String) : Except String String :=
  match dget? fv dist_name with
  | some v => .ok v
  | none =>
    match fv.find? (fun kv => norm kv.1 == norm dist_name) with
    | some kv => .ok kv.2
    | none => original_version dist_name

/-- A distribution object: either the fake one built by
`create_fake_distribution` (carrying just a name and a version) or a real
one from the underlying registry, left abstract. -/
inductive Distribution
  | fake (name version : String)
  | real (id : Nat)
deriving DecidableEq, Repr

/-- `create_fake_distribution(name, version)`: the minimal fake
distribution object. -/
def create_fake_distribution (name version : String) : Distribution :=
  .fake name version

/-- `FakeDistribution.__getitem__` / its metadata dict: `Name` maps to the
name, `Version` to the version, anything else to `None`. -/
def fakeDistributionItem (name version key : String) : Option String :=
  if key = "Name" then some name
  else if key = "Version" then some version
  else none

/-- `patched_distribution(dist_name)`: same lookup order as
`patched_version`, building a fake distribution (named after the requested
name) on a hit and delegating to the original function otherwise. -/
def patched_distribution (fv : Dict)
    (original_distribution : String → Except String Distribution)
    (dist_name : String) : Except String Distribution :=
  match dget? fv dist_name with
  | some v => .ok (create_fake_distribution dist_name v)
  | none =>
    match fv.find? (fun kv => norm kv.1 == norm dist_name) with
    | some kv => .ok (create_fake_distribution dist_name kv.2)
    | none => original_distribution dist_name

/-- The function currently installed as `metadata.version`: the untouched
registry function, or a wrapper closing over a fake-versions dict and over
whatever was installed when it was created. -/
inductive VersionFn
  | base
  | wrapped (fv : Dict) (inner : VersionFn)
deriving DecidableEq, Repr

/-- Run the installed `metadata.version` chain against the true underlying
registry function `orig`. Structural recursion: every lookup terminates
however many wrappers are stacked. -/
def VersionFn.eval : VersionFn → (String → Except String String) → String → Except String String
  | .base, orig, n => orig n
  | .wrapped fv inner, orig, n => patched_version fv (fun m => inner.eval orig m) n

/-- The function currently installed as `metadata.distribution`. -/
inductive DistributionFn
  | base
  | wrapped (fv : Dict) (inner : DistributionFn)
deriving DecidableEq, Repr

/-- Run the installed `metadata.distribution` chain against the true
underlying registry function. -/
def DistributionFn.eval :
    DistributionFn → (String → Except String Distribution) → String → Except String Distribution
  | .base, orig, n => orig n
  | .wrapped fv inner, orig, n => patched_distribution fv (fun m => inner.eval orig m) n

/-- The mutable module state of `importlib.metadata`: its two lookup entry
points. -/
structure Registry where
  version : VersionFn
  distribution : DistributionFn
deriving DecidableEq, Repr

/-- The registry before any patching. -/
def Registry.init : Registry := ⟨.base, .base⟩

/-- The mutation performed inside `patch_importlib_metadata`: capture the
CURRENT `metadata.version` / `metadata.distribution` as the originals and
install wrappers closing over them and over the fake-versions dict. -/
def install (fv : Dict) (r : Registry) : Registry :=
  ⟨.wrapped fv r.version, .wrapped fv r.distribution⟩

/-- `patch_importlib_metadata(excludes_file, requirements_file)`: build the
fake-versions dict only when both paths are given (else it is empty), then —
if `importlib.metadata` is importable — install the wrappers and return
`True`; if it is not importable, mutate nothing and return `False`. An
exception escaping the loader propagates. -/
def patch_importlib_metadata (excludes_file requirements_file : Option ReadResult)
    (metadata_available : Bool) (r : Registry) : Except PyError (Bool × Registry) :=
  match excludes_file, requirements_file with
  | some ex, some req =>
    match load_exclude_packages_and_versions ex req with
    | .error e => .error e
    | .ok fvw =>
      if metadata_available then .ok (true, install fvw.1 r) else .ok (false, r)
  | _, _ =>
    if metadata_available then .ok (true, install [] r) else .ok (false, r)

/-! ## Dictionary lemmas -/

theorem dget?_dinsert_self (m : Dict) (k v : String) : dget? (dinsert m k v) k = some v := by
  induction m with
  | nil => simp [dinsert, dget?]
  | cons kv rest ih =>
    by_cases h : kv.1 = k
    · simp [dinsert, h, dget?]
    · simp [dinsert, h, dget?, ih]

theorem dget?_dinsert_ne (m : Dict) (k v k' : String) (h : k ≠ k') :
    dget? (dinsert m k v) k' = dget? m k' := by
  induction m with
  | nil => simp [dinsert, dget?, h]
  | cons kv rest ih =>
    by_cases hk : kv.1 = k
    · have hk' : kv.1 ≠ k' := hk ▸ h
      simp [dinsert, hk, dget?, h, hk']
    · simp only [dinsert, hk, if_false, dget?]
      by_cases hkk : kv.1 = k'
      · simp [hkk]
      · simp [hkk, ih]

theorem mem_of_dget?_eq_some (m : Dict) (k v : String) (h : dget? m k = some v) :
    (k, v) ∈ m := by
  induction m with
  | nil => simp [dget?] at h
  | cons kv rest ih =>
    by_cases hk : kv.1 = k
    · simp only [dget?, hk, if_true, Option.some.injEq] at h
      have : kv = (k, v) := by
        cases kv
        simp_all
      simp [this]
    · simp only [dget?, hk, if_false] at h
      exact List.mem_cons_of_mem _ (ih h)

theorem dget?_foldl_resolve (pv : Dict) (exc : List String) (m : Dict) (p : String) :
    dget? (exc.foldl (fun acc q => dinsert acc q (resolve pv q)) m) p =
      if p ∈ exc then some (resolve pv p) else dget? m p := by
  induction exc generalizing m with
  | nil => simp
  | cons q rest ih =>
    simp only [List.foldl_cons]
    rw [ih]
    by_cases hq : p ∈ rest
    · simp [hq]
    · by_cases hpq : p = q
      · subst hpq
        simp [hq, dget?_dinsert_self]
      · simp [hq, hpq, dget?_dinsert_ne _ _ _ _ (Ne.symm hpq)]

/-- What the final map actually binds an excluded name to: the per-name
resolution `resolve`, overridden for `PIL` / `sklearn` by the Version Table
entry of the canonical alias name when that entry exists (the trailing
reverse-alias assignments of the code). -/
def postAlias (pv : Dict) (p : String) : String :=
  if p = "PIL" then
    match dget? pv "pillow" with
    | some v => v
    | none => resolve pv p
  else if p = "sklearn" then
    match dget? pv "scikit-learn" with
    | some v => v
    | none => resolve pv p
  else resolve pv p

theorem dget?_build_fake_versions (exc : List String) (pv : Dict) (p : String)
    (hp : p ∈ exc) :
    dget? (build_fake_versions exc pv) p = some (postAlias pv p) := by
  unfold build_fake_versions postAlias
  by_cases hpil : p = "PIL"
  · subst hpil
    cases hpw : dget? pv "pillow" with
    | some v =>
      cases hsw : dget? pv "scikit-learn" with
      | some w =>
        simp only [hpw, hsw]
        rw [dget?_dinsert_ne _ _ _ _ (by decide), dget?_dinsert_self]
        simp
      | none =>
        simp only [hpw, hsw]
        rw [dget?_dinsert_self]
        simp
    | none =>
      cases hsw : dget? pv "scikit-learn" with
      | some w =>
        simp only [hpw, hsw]
        rw [dget?_dinsert_ne _ _ _ _ (by decide), dget?_foldl_resolve]
        simp [hp]
      | none =>
        simp only [hpw, hsw]
        rw [dget?_foldl_resolve]
        simp [hp]
  · by_cases hskl : p = "sklearn"
    · subst hskl
      cases hsw : dget? pv "scikit-learn" with
      | some w =>
        cases hpw : dget? pv "pillow" with
        | some v =>
          simp only [hpw, hsw]
          rw [dget?_dinsert_self]
          simp [hpil]
        | none =>
          simp only [hpw, hsw]
          rw [dget?_dinsert_self]
          simp [hpil]
      | none =>
        cases hpw : dget? pv "pillow" with
        | some v =>
          simp only [hpw, hsw, if_neg (by decide : ¬("sklearn" : String) = "PIL")]
          rw [dget?_dinsert_ne _ _ _ _ (by decide), dget?_foldl_resolve]
          simp [hp]
        | none =>
          simp only [hpw, hsw, if_neg (by decide : ¬("sklearn" : String) = "PIL")]
          rw [dget?_foldl_resolve]
          simp [hp]
    · have step2 :
          ∀ base2 : Dict,
            dget? base2 p = some (resolve pv p) →
            dget? (match dget? pv "scikit-learn" with
                   | some v => dinsert base2 "sklearn" v
                   | none => base2) p = some (resolve pv p) := by
        intro base2 hb
        cases hsw : dget? pv "scikit-learn" with
        | some w => rw [dget?_dinsert_ne _ _ _ _ (fun hh => hskl hh.symm)]; exact hb
        | none => exact hb
      have step1 :
          dget? (match dget? pv "pillow" with
                 | some v =>
                   dinsert (exc.foldl (fun acc q => dinsert acc q (resolve pv q)) []) "PIL" v
                 | none => exc.foldl (fun acc q => dinsert acc q (resolve pv q)) []) p =
            some (resolve pv p) := by
        cases hpw : dget? pv "pillow" with
        | some v =>
          rw [dget?_dinsert_ne _ _ _ _ (fun hh => hpil hh.symm), dget?_foldl_resolve]
          simp [hp]
        | none =>
          rw [dget?_foldl_resolve]
          simp [hp]
      simp only [if_neg hpil, if_neg hskl]
      exact step2 _ step1

/-- On two readable sources the loader succeeds with no warnings, returning
exactly the built fake-versions dict. -/
theorem load_content (exLines reqLines : List String) :
    load_exclude_packages_and_versions (.content exLines) (.content reqLines) =
      .ok (build_fake_versions (parseExcludes exLines) (parseRequirements reqLines), []) := rfl

/-- A name whose normalized form matches no key of the dict is handed to the
original function, whose answer (or failure) is returned unchanged. -/
theorem patched_version_eq_original (fv : Dict) (orig : String → Except String String)
    (name : String) (h : ∀ kv ∈ fv, norm kv.1 ≠ norm name) :
    patched_version fv orig name = orig name := by
  have hd : dget? fv name = none := by
    cases hdd : dget? fv name with
    | none => rfl
    | some v => exact absurd rfl (h (name, v) (mem_of_dget?_eq_some _ _ _ hdd))
  have hf : fv.find? (fun kv => norm kv.1 == norm name) = none := by
    rw [List.find?_eq_none]
    intro kv hm
    simpa using h kv hm
  simp [patched_version, hd, hf]

/-- A concrete original `metadata.version` that fails on every name (the
package is genuinely not installed), echoing the requested name in the
failure. -/
def origMissing : String → Except String String := fun n => .error n

/-- A concrete original `metadata.version` that succeeds on every name. -/
def origFound : String → Except String String := fun _ => .ok "9.9.9"

/-- A concrete original `metadata.distribution` that fails on every name. -/
def origDistMissing : String → Except String Distribution := fun n => .error n

/-! ## Claim theorems -/

/-- Claim C1, counterexample. With Exclusion Set {sklearn} and Version Table
{sklearn -> 0.9.0, scikit-learn -> 1.3.0}, the Version Table has an entry
for the excluded name sklearn, yet the Fake Version Map binds sklearn to
1.3.0 (the scikit-learn entry), not to 0.9.0: the value does NOT come from
the Version Table entry for that name although one exists. -/
theorem C1_counterexample :
    load_exclude_packages_and_versions (.content ["sklearn"])
        (.content ["sklearn==0.9.0", "scikit-learn==1.3.0"]) =
      .ok ([("sklearn", "1.3.0")], []) ∧
    dget? (parseRequirements ["sklearn==0.9.0", "scikit-learn==1.3.0"]) "sklearn" =
      some "0.9.0" ∧
    ("1.3.0" : String) ≠ "0.9.0" := by
  refine ⟨rfl, rfl, by decide⟩

/-- Claim C1, amended: every name in the Exclusion Set appears as a key of
the Fake Version Map, and its value follows the stated order (Version Table
entry, else alias fallback, else the default "1.0.0") EXCEPT that an entry
whose version string is empty is treated as absent, and that for PIL
(resp. sklearn) the value is finally overwritten by the Version Table entry
for pillow (resp. scikit-learn) whenever that entry exists. `postAlias`
states exactly this amended resolution. -/
theorem C1_amended (exLines reqLines : List String) (p : String)
    (hp : p ∈ parseExcludes exLines) :
    ∃ fv w,
      load_exclude_packages_and_versions (.content exLines) (.content reqLines) =
        .ok (fv, w) ∧
      dget? fv p = some (postAlias (parseRequirements reqLines) p) := by
  refine ⟨_, _, load_content exLines reqLines, ?_⟩
  exact dget?_build_fake_versions _ _ _ hp

/-- Claim C1, witness: the amended theorem applied to the Exclusion Set
{foo} and an empty requirements source. -/
theorem C1_witness :
    ∃ fv w,
      load_exclude_packages_and_versions (.content ["foo"]) (.content []) =
        .ok (fv, w) ∧
      dget? fv "foo" = some (postAlias (parseRequirements []) "foo") :=
  C1_amended ["foo"] [] "foo" (by decide)

/-- Claim C2, counterexample. Excludes = {PIL}, requirements = [PIL==2.0.0,
pillow==9.5.0]: the exact entry PIL -> 2.0.0 exists in the Version Table,
yet the Fake Version Map binds PIL to 9.5.0 — the reverse-alias assignment
runs after the loop and overwrites the exact match, so exact match does NOT
take precedence for PIL when pillow is also present. -/
theorem C2_counterexample :
    load_exclude_packages_and_versions (.content ["PIL"])
        (.content ["PIL==2.0.0", "pillow==9.5.0"]) =
      .ok ([("PIL", "9.5.0")], []) ∧
    dget? (parseRequirements ["PIL==2.0.0", "pillow==9.5.0"]) "PIL" = some "2.0.0" ∧
    ("9.5.0" : String) ≠ "2.0.0" := by
  refine ⟨rfl, rfl, by decide⟩

/-- Claim C2, amended: an exact nonempty Version Table entry for an excluded
name takes precedence over alias fallback and default, PROVIDED the name is
not PIL with pillow also in the Version Table, and not sklearn with
scikit-learn also in the Version Table (in those two cases the reverse-alias
assignment overwrites the exact match). -/
theorem C2_amended (exLines reqLines : List String) (p v : String)
    (hp : p ∈ parseExcludes exLines)
    (hv : dget? (parseRequirements reqLines) p = some v)
    (hne : v ≠ "")
    (hPIL : p = "PIL" → dget? (parseRequirements reqLines) "pillow" = none)
    (hSk : p = "sklearn" → dget? (parseRequirements reqLines) "scikit-learn" = none) :
    ∃ fv w,
      load_exclude_packages_and_versions (.content exLines) (.content reqLines) =
        .ok (fv, w) ∧
      dget? fv p = some v := by
  refine ⟨_, _, load_content exLines reqLines, ?_⟩
  rw [dget?_build_fake_versions _ _ _ hp]
  have hres : resolve (parseRequirements reqLines) p = v := by
    simp [resolve, hv, hne]
  unfold postAlias
  by_cases h1 : p = "PIL"
  · subst h1
    rw [hPIL rfl]
    simp [hres]
  · by_cases h2 : p = "sklearn"
    · rw [if_neg h1, if_pos h2, hSk h2]
      exact congrArg some hres
    · rw [if_neg h1, if_neg h2]
      exact congrArg some hres

/-- Claim C2, witness: excludes = {foo}, requirements = [foo==2.3.1] gives
foo -> 2.3.1 by exact match. -/
theorem C2_witness :
    ∃ fv w,
      load_exclude_packages_and_versions (.content ["foo"]) (.content ["foo==2.3.1"]) =
        .ok (fv, w) ∧
      dget? fv "foo" = some "2.3.1" :=
  C2_amended ["foo"] ["foo==2.3.1"] "foo" "2.3.1" (by decide) (by decide) (by decide)
    (by decide) (by decide)

/-- Claim C3: when the requested name is exactly a key of the fake-versions
dict, the patched version lookup returns exactly the stored synthetic
version, and its answer is the same whatever the original registry function
is — so the original is never consulted. -/
theorem C3_exact_key_returns_fake (fv : Dict)
    (orig orig' : String → Except String String) (name v : String)
    (h : dget? fv name = some v) :
    patched_version fv orig name = .ok v ∧
    patched_version fv orig name = patched_version fv orig' name := by
  constructor
  · simp [patched_version, h]
  · simp [patched_version, h]

/-- Claim C3, witness: a map entry numpy -> 1.2.3 answers 1.2.3 both over a
failing original and over a succeeding one. -/
theorem C3_witness :
    patched_version [("numpy", "1.2.3")] origMissing "numpy" = .ok "1.2.3" ∧
    patched_version [("numpy", "1.2.3")] origMissing "numpy" =
      patched_version [("numpy", "1.2.3")] origFound "numpy" :=
  C3_exact_key_returns_fake [("numpy", "1.2.3")] origMissing origFound "numpy" "1.2.3"
    (by decide)

/-- Claim C4: a requested name that matches no fake key exactly and no fake
key after normalization is delegated to the original registry function, and
the original answer — success or failure — is returned unchanged, exactly
as the unpatched registry would have signalled it. -/
theorem C4_miss_delegates_unchanged (fv : Dict)
    (orig : String → Except String String) (name : String)
    (_hexact : dget? fv name = none)
    (hnorm : ∀ kv ∈ fv, norm kv.1 ≠ norm name) :
    patched_version fv orig name = orig name :=
  patched_version_eq_original fv orig name hnorm

/-- Claim C4, witness: with fake map {numpy -> 1.0}, looking up pandas
propagates the original failure (the error naming pandas) unchanged. -/
theorem C4_witness :
    patched_version [("numpy", "1.0")] origMissing "pandas" = origMissing "pandas" :=
  C4_miss_delegates_unchanged [("numpy", "1.0")] origMissing "pandas" (by decide)
    (by decide)

/-- Claim C5, counterexample: a source that is present but unreadable for a
reason other than file-not-found (the code catches only FileNotFoundError)
makes the loader raise — so it is not true that it never raises for any
inputs. -/
theorem C5_counterexample :
    load_exclude_packages_and_versions .accessError (.content []) =
      .error .readFailure := rfl

/-- Claim C5, amended: if a source is MISSING (FileNotFoundError) the loader
emits a non-fatal warning for it, proceeds as if that source were empty and
returns normally; but a source failing to read for any other reason
(inaccessible, e.g. permission denied) raises, the exception propagating to
the caller. -/
theorem C5_amended (ex req : ReadResult)
    (hex : ex ≠ .accessError) (hreq : req ≠ .accessError) :
    ∃ fv w,
      load_exclude_packages_and_versions ex req = .ok (fv, w) ∧
      (ex = .notFound → Warning.excludesNotFound ∈ w) ∧
      (req = .notFound → Warning.requirementsNotFound ∈ w) := by
  cases ex with
  | accessError => exact absurd rfl hex
  | content exLines =>
    cases req with
    | accessError => exact absurd rfl hreq
    | content reqLines => exact ⟨_, _, rfl, by simp, by simp⟩
    | notFound => exact ⟨_, _, rfl, by simp, by simp⟩
  | notFound =>
    cases req with
    | accessError => exact absurd rfl hreq
    | content reqLines => exact ⟨_, _, rfl, by simp, by simp⟩
    | notFound => exact ⟨_, _, rfl, by simp, by simp⟩

/-- Claim C5, witness: both sources missing — the loader succeeds and both
warnings are emitted. -/
theorem C5_witness :
    ∃ fv w,
      load_exclude_packages_and_versions .notFound .notFound = .ok (fv, w) ∧
      (ReadResult.notFound = ReadResult.notFound → Warning.excludesNotFound ∈ w) ∧
      (ReadResult.notFound = ReadResult.notFound → Warning.requirementsNotFound ∈ w) :=
  C5_amended .notFound .notFound (by decide) (by decide)

/-- Claim C6, counterexample: patch the registry a first time with
{numpy -> 2.0.0} and a second time with an empty map. The function the
second installation captured as its original is the first wrapper, not the
true registry function (first conjunct); behaviorally, a lookup for numpy
against an original that fails still answers 2.0.0 through the first
wrapper, whereas a wrapper over the true original would propagate the
failure (second and third conjuncts). -/
theorem C6_counterexample :
    (install [] (install [("numpy", "2.0.0")] Registry.init)).version ≠
      VersionFn.wrapped [] VersionFn.base ∧
    (install [] (install [("numpy", "2.0.0")] Registry.init)).version.eval
        origMissing "numpy" = .ok "2.0.0" ∧
    (VersionFn.wrapped [] VersionFn.base).eval origMissing "numpy" =
      .error "numpy" := by
  refine ⟨by decide, rfl, rfl⟩

/-- Claim C6, amended: a second installation does not cause infinite
recursion — every lookup runs through the finite wrapper chain and
terminates — but the original captured by the second installation is the
wrapper installed by the first call (the chain is wrapper over wrapper over
base), not the true registry function; a name matched by neither map is
still delegated through both wrappers to the true original. -/
theorem C6_amended (fv1 fv2 : Dict) (orig : String → Except String String) (n : String)
    (h1 : ∀ kv ∈ fv1, norm kv.1 ≠ norm n) (h2 : ∀ kv ∈ fv2, norm kv.1 ≠ norm n) :
    (install fv2 (install fv1 Registry.init)).version =
      VersionFn.wrapped fv2 (VersionFn.wrapped fv1 VersionFn.base) ∧
    (install fv2 (install fv1 Registry.init)).version.eval orig n = orig n := by
  refine ⟨rfl, ?_⟩
  show patched_version fv2 _ n = orig n
  rw [patched_version_eq_original _ _ _ h2]
  show patched_version fv1 _ n = orig n
  rw [patched_version_eq_original _ _ _ h1]
  rfl

/-- Claim C6, witness: the amended theorem at maps {a -> 1}, {b -> 2} and
the unmatched name zzz over a failing original. -/
theorem C6_witness :
    (install [("b", "2")] (install [("a", "1")] Registry.init)).version =
      VersionFn.wrapped [("b", "2")] (VersionFn.wrapped [("a", "1")] VersionFn.base) ∧
    (install [("b", "2")] (install [("a", "1")] Registry.init)).version.eval
        origMissing "zzz" = origMissing "zzz" :=
  C6_amended [("a", "1")] [("b", "2")] origMissing "zzz" (by decide) (by decide)

/-- Claim C7: whenever the Version Table has an entry for pillow
(resp. scikit-learn), the Fake Version Map binds PIL (resp. sklearn) to that
version — for EVERY excludes source, so in particular when PIL
(resp. sklearn) is not excluded. -/
theorem C7_reverse_alias_entries (exLines reqLines : List String) (vp vs : String) :
    (dget? (parseRequirements reqLines) "pillow" = some vp →
      ∃ fv w,
        load_exclude_packages_and_versions (.content exLines) (.content reqLines) =
          .ok (fv, w) ∧
        dget? fv "PIL" = some vp) ∧
    (dget? (parseRequirements reqLines) "scikit-learn" = some vs →
      ∃ fv w,
        load_exclude_packages_and_versions (.content exLines) (.content reqLines) =
          .ok (fv, w) ∧
        dget? fv "sklearn" = some vs) := by
  constructor
  · intro hp
    refine ⟨_, _, load_content exLines reqLines, ?_⟩
    unfold build_fake_versions
    rw [hp]
    cases hs : dget? (parseRequirements reqLines) "scikit-learn" with
    | some w =>
      rw [dget?_dinsert_ne _ _ _ _ (by decide), dget?_dinsert_self]
    | none =>
      rw [dget?_dinsert_self]
  · intro hs
    refine ⟨_, _, load_content exLines reqLines, ?_⟩
    unfold build_fake_versions
    rw [hs]
    cases hp : dget? (parseRequirements reqLines) "pillow" with
    | some w => rw [dget?_dinsert_self]
    | none => rw [dget?_dinsert_self]

/-- Claim C7, witness: an empty Exclusion Set with pillow and scikit-learn
pinned still yields the derived PIL and sklearn entries. -/
theorem C7_witness :
    (∃ fv w,
      load_exclude_packages_and_versions (.content [])
          (.content ["pillow==9.5.0", "scikit-learn==1.3.0"]) =
        .ok (fv, w) ∧
      dget? fv "PIL" = some "9.5.0") ∧
    (∃ fv w,
      load_exclude_packages_and_versions (.content [])
          (.content ["pillow==9.5.0", "scikit-learn==1.3.0"]) =
        .ok (fv, w) ∧
      dget? fv "sklearn" = some "1.3.0") :=
  ⟨(C7_reverse_alias_entries [] ["pillow==9.5.0", "scikit-learn==1.3.0"]
      "9.5.0" "1.3.0").1 (by decide),
   (C7_reverse_alias_entries [] ["pillow==9.5.0", "scikit-learn==1.3.0"]
      "9.5.0" "1.3.0").2 (by decide)⟩

/-- Claim C8, counterexample: a requirements line carrying an environment
marker is not of the exact form name==version, yet — because it contains
the substring == — it DOES contribute an entry (whose version value even
drags the marker text along). -/
theorem C8_counterexample :
    parseRequirements ["requests==2.31.0 ; python_version < \x224\x22"] =
      [("requests", "2.31.0 ; python_version < \x224\x22")] ∧
    dget? (parseRequirements ["requests==2.31.0 ; python_version < \x224\x22"])
      "requests" ≠ none := by
  refine ⟨rfl, by decide⟩

/-- Claim C8, amended: a non-blank, non-comment requirements line
contributes no entry exactly when it contains no == substring (range
constraints without ==, no-version pins); such a line is silently skipped
wherever it occurs. But any line containing == — including marker lines and
other unrecognized forms — does contribute the entry obtained by splitting
at the first ==. -/
theorem C8_amended (l : String) (pre post : List String)
    (h : pstrip l = "" ∨ startsWithHash (pstrip l) = true ∨
      hasEqEq (pstrip l).data = false) :
    parseRequirements (pre ++ l :: post) = parseRequirements (pre ++ post) := by
  have hstep : ∀ m : Dict, reqStep m l = m := by
    intro m
    rcases h with h | h | h
    · simp [reqStep, h]
    · simp only [reqStep, h, if_true]
      by_cases hb : pstrip l = ""
      · simp [hb]
      · simp [hb]
    · simp only [reqStep, h]
      by_cases hb : pstrip l = ""
      · simp [hb]
      · by_cases hc : startsWithHash (pstrip l) = true
        · simp [hb, hc]
        · simp [hb, hc, h]
  unfold parseRequirements
  rw [List.foldl_append, List.foldl_append, List.foldl_cons, hstep]

/-- Claim C8, witness: the line bad>=2.0 sitting between two pins
contributes nothing to the table. -/
theorem C8_witness :
    parseRequirements (["a==1"] ++ "bad>=2.0" :: ["c==3"]) =
      parseRequirements (["a==1"] ++ ["c==3"]) :=
  C8_amended "bad>=2.0" ["a==1"] ["c==3"] (by decide)

/-- Claim C9: after patching, matching is case- and separator-insensitive
for both lookups — whenever the lowercased, hyphen-to-underscore normalized
form of the requested name equals that of some fake key, both the version
lookup and the distribution lookup answer synthetically from such a key:
the version lookup returns that key's stored version and the distribution
lookup a fake record carrying the requested name and that version. -/
theorem C9_normalized_matching (fv : Dict)
    (orig : String → Except String String)
    (origd : String → Except String Distribution) (name : String)
    (h : ∃ kv ∈ fv, norm kv.1 = norm name) :
    ∃ kv ∈ fv,
      norm kv.1 = norm name ∧
      patched_version fv orig name = .ok kv.2 ∧
      patched_distribution fv origd name = .ok (Distribution.fake name kv.2) := by
  cases hd : dget? fv name with
  | some v =>
    exact ⟨(name, v), mem_of_dget?_eq_some _ _ _ hd, rfl,
      by simp [patched_version, hd],
      by simp [patched_distribution, hd, create_fake_distribution]⟩
  | none =>
    cases hf : fv.find? (fun kv => norm kv.1 == norm name) with
    | some kv =>
      refine ⟨kv, List.mem_of_find?_eq_some hf, ?_, ?_, ?_⟩
      · have := List.find?_some hf
        simpa using this
      · simp [patched_version, hd, hf]
      · simp [patched_distribution, hd, hf, create_fake_distribution]
    | none =>
      obtain ⟨kv, hm, hkv⟩ := h
      have := List.find?_eq_none.mp hf kv hm
      simp [hkv] at this

/-- Claim C9, witness: a lookup for Scikit-Learn matches the fake key
scikit_learn. -/
theorem C9_witness :
    ∃ kv ∈ [(("scikit_learn" : String), ("1.3.0" : String))],
      norm kv.1 = norm "Scikit-Learn" ∧
      patched_version [("scikit_learn", "1.3.0")] origMissing "Scikit-Learn" =
        .ok kv.2 ∧
      patched_distribution [("scikit_learn", "1.3.0")] origDistMissing "Scikit-Learn" =
        .ok (Distribution.fake "Scikit-Learn" kv.2) :=
  C9_normalized_matching [("scikit_learn", "1.3.0")] origMissing origDistMissing
    "Scikit-Learn" ⟨("scikit_learn", "1.3.0"), by decide, by decide⟩

/-- Claim C10: when either path argument is omitted (None), the
fake-versions dict is empty, the patch still installs and returns True, and
every subsequent version or distribution lookup on the patched registry
delegates to the original registry functions. -/
theorem C10_missing_path_all_delegate (ex req : Option ReadResult)
    (orig : String → Except String String)
    (origd : String → Except String Distribution) (n m : String)
    (h : ex = none ∨ req = none) :
    patch_importlib_metadata ex req true Registry.init =
      .ok (true, install [] Registry.init) ∧
    (install [] Registry.init).version.eval orig n = orig n ∧
    (install [] Registry.init).distribution.eval origd m = origd m := by
  refine ⟨?_, rfl, rfl⟩
  rcases h with rfl | rfl
  · rfl
  · cases ex with
    | none => rfl
    | some e => rfl

/-- Claim C10, witness: only the requirements path supplied — the map is
empty and lookups for numpy pass straight through to the original
functions. -/
theorem C10_witness :
    patch_importlib_metadata none (some (.content ["numpy==1.0"])) true Registry.init =
      .ok (true, install [] Registry.init) ∧
    (install [] Registry.init).version.eval origMissing "numpy" = origMissing "numpy" ∧
    (install [] Registry.init).distribution.eval origDistMissing "numpy" =
      origDistMissing "numpy" :=
  C10_missing_path_all_delegate none (some (.content ["numpy==1.0"])) origMissing
    origDistMissing "numpy" "numpy" (Or.inl rfl)

end PatchMeta
